import Mathlib

/-!
Verification of the web-pico-editor device session protocol engine.

The repository is a browser-resident control channel for a MicroPython
board over the Web Serial API.  The definitions below are shallow
embeddings of the TypeScript source: decoded text is modelled as a list
of characters, the asynchronous stream of reader results as a list of
read events, and the cooperatively scheduled async functions as explicit
transition systems whose atomic steps are the code segments between two
awaits.
-/

namespace PicoEditor

/-- Decoded text (a JS string) is a list of characters. -/
abbrev Str := List Char

/-- The character list of a Lean string literal, used to write concrete
JS strings in statements. -/
def str (s : String) : Str := s.data

/-! ## JS string primitives used by the source

`hasPref pat hay` is true when `pat` occurs at the start of `hay`;
`strIncludes` is `String.prototype.includes`; `beforeTarget hay pat` is
`hay.split(pat)[0]` for a non-empty `pat` (the prefix of `hay` before
the first occurrence of `pat`, or all of `hay` when absent). -/

def hasPref : Str → Str → Bool
  | [], _ => true
  | _ :: _, [] => false
  | a :: pat, b :: hay => a == b && hasPref pat hay

def strIncludes : Str → Str → Bool
  | [], pat => hasPref pat []
  | c :: t, pat => hasPref pat (c :: t) || strIncludes t pat

def beforeTarget : Str → Str → Str
  | [], _ => []
  | c :: t, pat => if hasPref pat (c :: t) then [] else c :: beforeTarget t pat

/-! ## Codec helpers (src/utils/setup.ts, duplicated in src/index.ts)

`binaryStringToUint8Array` decodes the device hex dump format
`b<quote>hexdigits<quote>` into bytes.  The embedding mirrors the
TypeScript statement by statement. -/

/-- The numeric value of one hex digit, as `parseInt` base 16 reads it. -/
def hexDigitVal (c : Char) : Option Nat :=
  if '0' ≤ c ∧ c ≤ '9' then some (c.toNat - '0'.toNat)
  else if 'a' ≤ c ∧ c ≤ 'f' then some (c.toNat - 'a'.toNat + 10)
  else if 'A' ≤ c ∧ c ≤ 'F' then some (c.toNat - 'A'.toNat + 10)
  else none

def parseIntHexGo : Str → Option Nat → Option Nat
  | [], acc => acc
  | c :: t, acc =>
    match hexDigitVal c with
    | some d => parseIntHexGo t (some (acc.getD 0 * 16 + d))
    | none => acc

/-- `parseInt(s, 16)` on a two-character slice: the longest leading run
of hex digits, `none` when there is none (JS `NaN`; the full `parseInt`
additionally skips whitespace and handles a sign and an `0x` prefix,
which on two-character inputs only affects slices no hex dump body
produces, and an `0x` slice yields the stored byte 0 either way). -/
def parseIntHex (s : Str) : Option Nat := parseIntHexGo s none

/-- Storing `parseInt`'s result into a `Uint8Array` slot: `ToUint8`
(modulo 256, `NaN` becomes 0). -/
def storeByte (v : Option Nat) : Nat :=
  match v with
  | some n => n % 256
  | none => 0

/-- `hexStr.substr(i, 2)` for `i = 0, 2, 4, ...`: chunks of two
characters, with a final singleton when the length is odd. -/
def toPairs : Str → List Str
  | [] => []
  | [a] => [[a]]
  | a :: b :: t => [a, b] :: toPairs t

/-- `binaryStr.slice(2, -1)`: unconditionally drop the first two
characters and the last one, with no check that they are the `b`,
the quotes, or anything else. -/
def stripFraming (s : Str) : Str := (s.drop 2).dropLast

/-- The odd-length repair: `if (hexStr.length % 2 !== 0) hexStr = hexStr + '0'`
(a trailing `0` nibble, the source comment notwithstanding). -/
def padHex (s : Str) : Str := if s.length % 2 ≠ 0 then s ++ ['0'] else s

/-- The hex digit text `binaryStringToUint8Array` pairs up: the framed
input stripped and padded. -/
def hexBody (s : String) : Str := padHex (stripFraming (str s))

/-- The `byteArray` the decode loop fills, before the final-NULL trim. -/
def decodedBytes (s : String) : List Nat :=
  (toPairs (hexBody s)).map (fun p => storeByte (parseIntHex p))

/-- `binaryStringToUint8Array` (src/utils/setup.ts:46-63 and
src/index.ts:1343-1360): strip framing, pad, decode pairs, and drop the
final byte when `byteArray[byteArray.length - 1] === 0` (for the empty
array the JS index read gives `undefined`, which is not `=== 0`). -/
def binaryStringToUint8Array (s : String) : List Nat :=
  let byteArray := decodedBytes s
  if byteArray.getLast? == some 0 then byteArray.dropLast else byteArray

/-! ## Framed reader and `clearPicoPort` (src/utils/readFromPort.ts, pico.ts)

One pull from the reader either yields a decoded chunk, rejects with an
`Error` carrying a message, or reports the stream done (the end of the
event list).  `readFromPort` yields each chunk and stops after the first
chunk that contains the (truthy) target; `clearPicoPort` feeds every
yielded chunk to the callback, accumulates, trims the final chunk at the
target, and in a `finally` releases the reader lock and clears the
stored reader reference.  A rejected read is caught: clearPicoPort
prints one bracketed error line and still resolves with the text
accumulated so far. -/

inductive ReadEvt where
  | chunk (s : Str)
  | errE (msg : Str)
  deriving DecidableEq, Repr

/-- JS truthiness of the `targetChar` parameter: `false` and the empty
string are falsy, every other string is truthy. -/
def targetTruthy : Option Str → Bool
  | none => false
  | some t => !t.isEmpty

/-- The bracketed terminal line the catch block writes. -/
def errLine (m : Str) : Str := str "<ERROR: " ++ m ++ str ">"

/-- The chunks a list of strings contributes to the read event stream. -/
def chunkEvts (l : List Str) : List ReadEvt := l.map ReadEvt.chunk

/-- The `for await (const chunk of generator)` loop of `clearPicoPort`
together with its catch block, returning (accumulated result, chunks
delivered to the callback, error lines written to the terminal). -/
def clearLoop (t : Option Str) : List ReadEvt → Str → List Str →
    Str × List Str × List Str
  | [], acc, cbs => (acc, cbs, [])
  | ReadEvt.errE m :: _, acc, cbs => (acc, cbs, [errLine m])
  | ReadEvt.chunk c :: rest, acc, cbs =>
    if targetTruthy t && strIncludes c (t.getD []) then
      (acc ++ beforeTarget c (t.getD []), cbs ++ [c], [])
    else clearLoop t rest (acc ++ c) (cbs ++ [c])

/-- The outcome of one `clearPicoPort` call: its resolved value, the
chunks handed to the callback, the error lines written, and whether the
readable stream lock and the `picoReader` reference are still held when
the promise resolves. -/
structure ClearOutcome where
  result : Str
  callbacks : List Str
  errLines : List Str
  lockedAfter : Bool
  readerAfter : Bool
  deriving DecidableEq, Repr

/-- `Pico.clearPicoPort(targetChar, callback)` (src/unnamed/part_000:188-226).
`portReadable` is the `picoPort && picoPort.readable` guard;
`lockedBefore`/`readerBefore` the lock and reference state the call finds.
When the guard fails nothing is acquired and nothing changes; otherwise
the reader is acquired, the loop runs over the read events, and the
`finally` block releases the lock and sets the reference to undefined on
every path out of the loop, error or not. -/
def clearPicoPort (portReadable : Bool) (t : Option Str) (evts : List ReadEvt)
    (lockedBefore readerBefore : Bool) : ClearOutcome :=
  if portReadable then
    let r := clearLoop t evts [] []
    ⟨r.1, r.2.1, r.2.2, false, false⟩
  else ⟨[], [], [], lockedBefore, readerBefore⟩

/-! ## `waitForOK` (src/index.ts:399-435, earlier engine variant)

The loop polls the receive buffer every 100 ms, appends it to
`receivedData`, succeeds as soon as the text `>OK` has been seen
(leaving the remainder in the buffer and entering data transfer mode),
and throws a timeout error once more than 3000 ms have elapsed.  Time is
modelled by the iteration count: the check at iteration `k` happens
after `k` sleeps of 100 ms. -/

/-- Everything after the first occurrence of `pat` (empty when `pat` is
absent). -/
def afterTarget : Str → Str → Str
  | [], _ => []
  | c :: t, pat => if hasPref pat (c :: t) then (c :: t).drop pat.length
                   else afterTarget t pat

/-- `received.split(target)[1]`: the segment between the first
occurrence of `pat` and the next one (or the end).  The code stores
this back into the receive buffer, mapping a falsy value to the empty
string. -/
def splitSecond (s pat : Str) : Str := beforeTarget (afterTarget s pat) pat

/-- One execution of the wait loop from iteration `k` with `received`
accumulated so far.  `poll j` is the decoded data `getReceivedBuff`
returns at iteration `j`.  Returns the remaining buffer on success and
the timeout message on failure, paired with the iteration index at which
the loop stopped. -/
def waitForOKFrom (poll : Nat → Str) (k : Nat) (received : Str) :
    Except Str Str × Nat :=
  let received2 := received ++ poll k
  if strIncludes received2 (str ">OK") then
    (Except.ok (splitSecond received2 (str ">OK")), k)
  else if 100 * k > 3000 then
    (Except.error (str "Timeout waiting for \">OK\""), k)
  else waitForOKFrom poll (k + 1) received2
termination_by 31 - k
decreasing_by
  simp only [not_lt] at *
  omega

/-- `Pico.waitForOK()`: when data transfer mode is already on the loop
body never runs; otherwise the polling loop starts at iteration 0 with
nothing accumulated. -/
def waitForOK (isDataTransferMode : Bool) (poll : Nat → Str) :
    Except Str Str × Nat :=
  if isDataTransferMode then (Except.ok [], 0)
  else waitForOKFrom poll 0 []

/-! ## Writer-side traffic of `writeFile` (src/unnamed/part_000:248-267)

`writeFile` cancels the relay reader, spawns a buffer-clearing read, and
then drives the writable stream.  The events below record exactly what
happens to the writable endpoint, in order: writer lease acquisitions
(`getWritablePort`), the strings handed to `picoWrite` (each UTF-8
encoded onto the stream), and lease releases.  The reader-side
bookkeeping is modelled separately by the interleaving system further
down; notably no read of a device response occurs anywhere in
`writeFile`. -/

inductive WriterEvt where
  | acquire
  | wr (s : Str)
  | release
  deriving DecidableEq, Repr

/-- `JSON.stringify(Array.from(content))`: the bracketed, comma separated
decimal literal of the byte array, with no spaces. -/
def jsonNumArray (l : List Nat) : Str :=
  str "[" ++ List.intercalate (str ",") (l.map (fun n => str (toString n))) ++ str "]"

/-- `Pico.sendCommand(command)` (src/unnamed/part_000:173-178): when a
writable port exists, acquire the writer, write the command, release;
otherwise do nothing. -/
def sendCommandEvts (portWritable : Bool) (command : Str) : List WriterEvt :=
  if portWritable then [WriterEvt.acquire, WriterEvt.wr command, WriterEvt.release]
  else []

/-- The writer events of `Pico.writeFile(filename, content)`: enter raw
mode (0x01), the open line, the `f.write(bytes([...]))` line built from
`JSON.stringify(Array.from(content))`, end of data (0x04), release the
writer lease, then `sendCommand` of exit to interactive (0x02) as an
ordinary command with its own acquire/release. -/
def writeFileEvts (portWritable : Bool) (filename : String) (content : List Nat) :
    List WriterEvt :=
  (if portWritable then
    [WriterEvt.acquire,
     WriterEvt.wr (str "\x01"),
     WriterEvt.wr (str "with open(\"" ++ str filename ++ str "\", \"wb\") as f:\r"),
     WriterEvt.wr (str "  f.write(bytes(" ++ jsonNumArray content ++ str "))\r"),
     WriterEvt.wr (str "\x04"),
     WriterEvt.release] ++ sendCommandEvts portWritable (str "\x02")
  else [])

/-! ## The write/exchange entry points as state transformers (C8)

`PicoSerial.getWritablePort` (src/utils/picoSerial.ts:170-177) returns
the writer when `picoPort && picoPort.writable`, and otherwise stores
`null` into the `picoWriter` field and returns `null`.  Every
write/exchange entry point — `sendCommand`, the run-code button
handler, `writeFile`, `loadTempPy` — goes through this guard before
touching the writable stream, and the exchange entry points
additionally run `clearPicoPort`/`readPicoPort`, themselves guarded by
`picoPort && picoPort.readable`.  The state below is the session state
these code paths can touch: the port with its readable and writable
endpoints, the stored reader reference and the readable stream's lock,
the cached writer reference, and the log of strings written to the
transport (each UTF-8 encoded onto the stream by `picoWrite`). -/

structure PicoState where
  portPresent : Bool
  portWritable : Bool
  portReadable : Bool
  picoReader : Bool
  locked : Bool
  picoWriter : Bool
  written : List Str
  deriving DecidableEq, Repr

/-- `getWritablePort`: result is whether a writer was produced; the
`picoWriter` field is assigned on both branches. -/
def getWritablePortM (s : PicoState) : Bool × PicoState :=
  if s.portPresent && s.portWritable then
    (true, { s with picoWriter := true })
  else
    (false, { s with picoWriter := false })

/-- `Pico.sendCommand(command)` as a state transformer: guard on
`getWritablePort`, then write and release the lock (release does not
clear the cached `picoWriter` field). -/
def sendCommandM (command : Str) (s : PicoState) : PicoState :=
  let r := getWritablePortM s
  if r.1 then { r.2 with written := r.2.written ++ [command] }
  else r.2

/-- The run-code button handler (src/index.ts:831-835): one
`sendCommand` of raw-mode-enter, the code text, end-of-data and
exit-to-interactive. -/
def runCodeM (text : Str) (s : PicoState) : PicoState :=
  sendCommandM (str "\x01" ++ text ++ str "\x04\x02") s

/-- A `clearPicoPort` call as seen by the session state: its
`picoPort && picoPort.readable` guard and the lock and reader-reference
threading of `clearPicoPort` (the accumulated text is the outcome's
business, taken up by the theorems about `clearPicoPort` itself). -/
def clearPicoPortM (t : Option Str) (evts : List ReadEvt) (s : PicoState) :
    PicoState :=
  let o := clearPicoPort (s.portPresent && s.portReadable) t evts
    s.locked s.picoReader
  { s with locked := o.lockedAfter, picoReader := o.readerAfter }

/-- `Pico.writeFile(filename, content)` as a session-state transformer.
The two `if (picoReader) await picoReader.cancel()` statements change
none of the fields here (cancelling resolves the pending read; it
neither clears the stored reference nor releases the lock), and the
un-awaited `clearPicoPort(false, null)` and `readPicoPort()` calls are
composed sequentially — exact on the guarded no-transport paths this
model serves, where both are identity; their interleaved behaviour is
the subject of the reader-lease system below.  `clearEvts` and
`resumeEvts` are the read events those two calls would consume. -/
def writeFileM (filename : String) (content : List Nat)
    (clearEvts resumeEvts : List ReadEvt) (s : PicoState) : PicoState :=
  let s1 := clearPicoPortM none clearEvts s
  let r := getWritablePortM s1
  let s2 :=
    if r.1 then
      sendCommandM (str "\x02")
        { r.2 with written := r.2.written ++
            [str "\x01",
             str "with open(\"" ++ str filename ++ str "\", \"wb\") as f:\r",
             str "  f.write(bytes(" ++ jsonNumArray content ++ str "))\r",
             str "\x04"] }
    else r.2
  clearPicoPortM none resumeEvts s2

/-- `loadTempPy` (src/index.ts:768-796), the read-file exchange, as a
session-state transformer: cancel the relay reader (identity on these
fields), then behind the `getWritablePort` guard send the raw-mode
command lines, release the writer, run the two framed reads (wait for
`OK`, then collect up to 0x04 — whose result goes through
`binaryStringToUint8Array` into the editor), send exit-to-interactive,
and in every case restart the relay with `readPicoPort()`. -/
def loadTempPyM (okEvts dataEvts resumeEvts : List ReadEvt)
    (s : PicoState) : PicoState :=
  let r := getWritablePortM s
  let s2 :=
    if r.1 then
      let sw := { r.2 with written := r.2.written ++
          [str "\x01",
           str "import os\r",
           str "with open(\"temp.py\", \"rb\") as f:\r",
           str "  import ubinascii\r",
           str "  print(ubinascii.hexlify(f.read()))\r",
           str "\x04"] }
      let sr := clearPicoPortM (some (str "OK")) okEvts sw
      let sr2 := clearPicoPortM (some (str "\x04")) dataEvts sr
      sendCommandM (str "\x02") sr2
    else r.2
  clearPicoPortM none resumeEvts s2

/-! ## Port registry (src/utils/picoSerial.ts:25-66)

Option elements of the selection dropdown.  A port is identified by the
underlying `SerialPort` object; JS reference equality between distinct
objects is modelled by a numeric identity.  An option's `value` falls
back to its text content (`Port N`), and `findPortOption` skips the one
whose value is the literal `prompt`. -/

structure PortOption where
  value : Str
  label : Str
  port : Option Nat
  deriving DecidableEq, Repr

structure Registry where
  options : List PortOption
  portCounter : Nat
  deriving DecidableEq, Repr

/-- `findPortOption(port)`: scan the options in order, skip the prompt
entry, and return the first whose `port` field is the given port object
(reference equality, never the label). -/
def findPortOption (opts : List PortOption) (port : Nat) : Option PortOption :=
  match opts with
  | [] => none
  | o :: rest =>
    if o.value = str "prompt" then findPortOption rest port
    else if o.port = some port then some o
    else findPortOption rest port

/-- `addNewPort(port)`: create an option labelled `Port N` from the
counter, attach the port object, append it to the dropdown. -/
def addNewPort (r : Registry) (port : Nat) : PortOption × Registry :=
  let label := str "Port " ++ str (toString r.portCounter)
  let o : PortOption := ⟨label, label, some port⟩
  (o, ⟨r.options ++ [o], r.portCounter + 1⟩)

/-- `maybeAddNewPort(port)`: return the existing option when
`findPortOption` finds one, otherwise add a new one. -/
def maybeAddNewPort (r : Registry) (port : Nat) : PortOption × Registry :=
  match findPortOption r.options port with
  | some o => (o, r)
  | none => addNewPort r port

/-- A relabelling of the dropdown: every option keeps its value and its
port object but its display label is rewritten. -/
def relabelOption (f : Str → Str) (o : PortOption) : PortOption :=
  ⟨o.value, f o.label, o.port⟩

/-! ## Reader-lease interleaving system (C1)

The scenario the claim quantifies over: the terminal relay
(`readPicoPort`, whose body is `clearPicoPort(false, cb)`) and one
`writeFile` exchange run as cooperative tasks over the single readable
stream.  An atomic step is the code between two awaits.  The stream lock
follows the Web Streams discipline: `getReader()` throws when the stream
is already locked, `reader.cancel()` resolves the pending read but does
not release the lock, and only `releaseLock()` in the holder's `finally`
block unlocks.  `writeFile` awaits the cancellation of the relay reader
but not the relay loop's cleanup, then calls `clearPicoPort(false, null)`
whose synchronous prefix immediately calls `getReader()`; the same
pattern repeats at the end around `readPicoPort()`.  The scheduler
(the list of events) decides when each suspended task resumes. -/

inductive RId where
  | relay
  | clearR
  | relay2
  deriving DecidableEq, Repr

inductive RelayPc where
  | idle
  | reading
  | finished
  deriving DecidableEq, Repr

inductive ClearPc where
  | notSpawned
  | reading
  | finished
  deriving DecidableEq, Repr

inductive WritePc where
  | start
  | cancelWait
  | writesDone
  | cancel2Wait
  | done
  deriving DecidableEq, Repr

structure C1State where
  locked : Bool
  picoReader : Option RId
  relayPc : RelayPc
  clearPc : ClearPc
  writePc : WritePc
  relayCancelled : Bool
  clearCancelled : Bool
  relay2Cancelled : Bool
  relay2Acquired : Bool
  lockedExn : Bool
  typeErr : Bool
  deriving DecidableEq, Repr

def C1init : C1State :=
  ⟨false, none, RelayPc.idle, ClearPc.notSpawned, WritePc.start,
   false, false, false, false, false, false⟩

/-- `await reader.cancel()`: the pending read of the cancelled reader
resolves done (waking its loop) and the reader stops being a live lease;
the stream lock is untouched. -/
def cancelReader (s : C1State) (r : RId) : C1State :=
  match r with
  | RId.relay => { s with relayCancelled := true }
  | RId.clearR => { s with clearCancelled := true }
  | RId.relay2 => { s with relay2Cancelled := true }

/-- The `finally` block of `clearPicoPort`:
`picoSerial.picoReader.releaseLock(); picoSerial.picoReader = undefined`.
It releases whatever reader the global reference holds; on `undefined`
the member access would throw. -/
def finallyRelease (s : C1State) : C1State :=
  match s.picoReader with
  | some _ => { s with locked := false, picoReader := none }
  | none => { s with typeErr := true }

/-- The synchronous prefix of a `clearPicoPort` call (the un-awaited
`this.clearPicoPort(false, null)` inside `writeFile`): check the port,
then `picoReader = picoPort.readable.getReader()` — throwing the
already-locked TypeError when the stream is locked, acquiring and
storing the reader otherwise. -/
def segClearSpawn (s : C1State) : C1State :=
  if s.locked then { s with lockedExn := true }
  else { s with locked := true, picoReader := some RId.clearR,
                clearPc := ClearPc.reading }

/-- The synchronous prefix of the final `this.readPicoPort()` call of
`writeFile`: the same `getReader()` acquisition for the resumed relay. -/
def segRelayRestart (s : C1State) : C1State :=
  if s.locked then { s with lockedExn := true }
  else { s with locked := true, picoReader := some RId.relay2,
                relay2Acquired := true }

inductive C1Evt where
  | relayStep
  | clearStep
  | writeStep
  deriving DecidableEq, Repr

/-- One scheduler turn.  The relay task starts by acquiring the reader
and then sits in its read loop until cancelled, when its `finally`
runs; the buffer-clearing task spawned by `writeFile` behaves the same;
the `writeFile` task runs its atomic segments in order, suspending at
each `await`.  The writer-side awaits between `getReader` and the
second `picoReader` check (the five `write` calls and `releaseLock`)
touch no reader state, so they are folded into the surrounding
segments; other tasks can still run between the two `writeStep`s, so no
interleaving point is lost.  A task that is not runnable leaves the
state unchanged. -/
def C1step (s : C1State) (e : C1Evt) : C1State :=
  match e with
  | C1Evt.relayStep =>
    match s.relayPc with
    | RelayPc.idle =>
      if s.locked then { s with lockedExn := true, relayPc := RelayPc.finished }
      else { s with locked := true, picoReader := some RId.relay,
                    relayPc := RelayPc.reading }
    | RelayPc.reading =>
      if s.relayCancelled then
        { finallyRelease s with relayPc := RelayPc.finished }
      else s
    | RelayPc.finished => s
  | C1Evt.clearStep =>
    match s.clearPc with
    | ClearPc.reading =>
      if s.clearCancelled then
        { finallyRelease s with clearPc := ClearPc.finished }
      else s
    | _ => s
  | C1Evt.writeStep =>
    match s.writePc with
    | WritePc.start =>
      match s.picoReader with
      | some r => { cancelReader s r with writePc := WritePc.cancelWait }
      | none => { segClearSpawn s with writePc := WritePc.writesDone }
    | WritePc.cancelWait =>
      { segClearSpawn s with writePc := WritePc.writesDone }
    | WritePc.writesDone =>
      match s.picoReader with
      | some r => { cancelReader s r with writePc := WritePc.cancel2Wait }
      | none => { segRelayRestart s with writePc := WritePc.done }
    | WritePc.cancel2Wait =>
      { segRelayRestart s with writePc := WritePc.done }
    | WritePc.done => s

def C1run (es : List C1Evt) : C1State := es.foldl C1step C1init

/-- A reader lease is live when it has been acquired and neither
released nor cancelled. -/
def relayLive (s : C1State) : Bool :=
  s.relayPc == RelayPc.reading && !s.relayCancelled

def clearLive (s : C1State) : Bool :=
  s.clearPc == ClearPc.reading && !s.clearCancelled

def relay2Live (s : C1State) : Bool :=
  s.relay2Acquired && !s.relay2Cancelled

def liveCount (s : C1State) : Nat :=
  (relayLive s).toNat + (clearLive s).toNat + (relay2Live s).toNat

/-- A reader holds the stream lock from `getReader()` until its
`releaseLock()`, cancelled or not. -/
def holdersCount (s : C1State) : Nat :=
  (s.relayPc == RelayPc.reading).toNat + (s.clearPc == ClearPc.reading).toNat +
    s.relay2Acquired.toNat

/-- The set of states reachable from `C1init` under any scheduling: the
fixed point of successor exploration (31 states), checked closed and
sound by the lemmas below. -/
def C1reach : List C1State :=
  [⟨true, some RId.relay2, RelayPc.finished, ClearPc.finished, WritePc.done, true, true, false, true, false, false⟩,
   ⟨false, none, RelayPc.finished, ClearPc.finished, WritePc.done, true, true, false, false, true, false⟩,
   ⟨false, none, RelayPc.finished, ClearPc.finished, WritePc.cancel2Wait, true, true, false, false, false, false⟩,
   ⟨true, some RId.clearR, RelayPc.finished, ClearPc.reading, WritePc.done, true, true, false, false, true, false⟩,
   ⟨false, none, RelayPc.finished, ClearPc.notSpawned, WritePc.done, true, false, false, false, true, false⟩,
   ⟨true, some RId.clearR, RelayPc.finished, ClearPc.reading, WritePc.cancel2Wait, true, true, false, false, false, false⟩,
   ⟨true, some RId.relay2, RelayPc.finished, ClearPc.notSpawned, WritePc.done, true, false, false, true, true, false⟩,
   ⟨false, none, RelayPc.finished, ClearPc.notSpawned, WritePc.cancel2Wait, true, false, false, false, true, false⟩,
   ⟨true, some RId.relay, RelayPc.reading, ClearPc.notSpawned, WritePc.done, true, false, false, false, true, false⟩,
   ⟨true, some RId.clearR, RelayPc.finished, ClearPc.reading, WritePc.writesDone, true, false, false, false, false, false⟩,
   ⟨false, none, RelayPc.finished, ClearPc.notSpawned, WritePc.writesDone, true, false, false, false, true, false⟩,
   ⟨true, some RId.relay, RelayPc.reading, ClearPc.notSpawned, WritePc.cancel2Wait, true, false, false, false, true, false⟩,
   ⟨false, none, RelayPc.finished, ClearPc.notSpawned, WritePc.cancelWait, true, false, false, false, false, false⟩,
   ⟨true, some RId.relay, RelayPc.reading, ClearPc.notSpawned, WritePc.writesDone, true, false, false, false, true, false⟩,
   ⟨true, some RId.relay, RelayPc.reading, ClearPc.notSpawned, WritePc.cancelWait, true, false, false, false, false, false⟩,
   ⟨true, some RId.relay, RelayPc.reading, ClearPc.notSpawned, WritePc.start, false, false, false, false, false, false⟩,
   ⟨false, none, RelayPc.idle, ClearPc.notSpawned, WritePc.start, false, false, false, false, false, false⟩,
   ⟨true, some RId.clearR, RelayPc.finished, ClearPc.reading, WritePc.writesDone, false, false, false, false, true, false⟩,
   ⟨true, some RId.clearR, RelayPc.idle, ClearPc.reading, WritePc.writesDone, false, false, false, false, false, false⟩,
   ⟨true, some RId.clearR, RelayPc.idle, ClearPc.reading, WritePc.cancel2Wait, false, true, false, false, false, false⟩,
   ⟨true, some RId.clearR, RelayPc.finished, ClearPc.reading, WritePc.cancel2Wait, false, true, false, false, true, false⟩,
   ⟨false, none, RelayPc.finished, ClearPc.finished, WritePc.cancel2Wait, false, true, false, false, true, false⟩,
   ⟨true, some RId.relay, RelayPc.reading, ClearPc.finished, WritePc.cancel2Wait, false, true, false, false, false, false⟩,
   ⟨false, none, RelayPc.idle, ClearPc.finished, WritePc.cancel2Wait, false, true, false, false, false, false⟩,
   ⟨true, some RId.relay2, RelayPc.finished, ClearPc.finished, WritePc.done, false, true, false, true, true, false⟩,
   ⟨true, some RId.relay2, RelayPc.idle, ClearPc.finished, WritePc.done, false, true, false, true, false, false⟩,
   ⟨false, none, RelayPc.finished, ClearPc.finished, WritePc.done, false, true, false, false, true, false⟩,
   ⟨true, some RId.relay, RelayPc.reading, ClearPc.finished, WritePc.done, false, true, false, false, true, false⟩,
   ⟨true, some RId.clearR, RelayPc.finished, ClearPc.reading, WritePc.done, false, true, false, false, true, false⟩,
   ⟨false, none, RelayPc.idle, ClearPc.finished, WritePc.done, false, true, false, false, true, false⟩,
   ⟨true, some RId.clearR, RelayPc.idle, ClearPc.reading, WritePc.done, false, true, false, false, true, false⟩]

/-! ## Disconnect system (C7, src/utils/picoSerial.ts:92-126)

`disconnectFromPort` stashes the port into a local, clears the stored
port, awaits `picoReader.cancel()` when a reader is outstanding, closes
the local port inside try/catch (the close error is logged, not
rethrown), and calls `markDisconnected`, which writes the
`<DISCONNECTED>` terminal line.  The relay task woken by the
cancellation runs its own `finally`, releasing the lock and clearing the
stored reader reference.  `readerAtStart` and `closeFails` are the
immutable configuration: whether a relay reader lease is live when
disconnect is called, and whether `port.close()` rejects. -/

inductive DPc where
  | start
  | cancelWait
  | closeWait
  | done
  deriving DecidableEq, Repr

structure DState where
  readerAtStart : Bool
  closeFails : Bool
  picoPort : Bool
  localPort : Bool
  picoReader : Bool
  relayReading : Bool
  relayCancelled : Bool
  dPc : DPc
  closeCalled : Bool
  closeErrLogged : Bool
  disconnectedLine : Bool
  deriving DecidableEq, Repr

def DInit (rp cf : Bool) : DState :=
  ⟨rp, cf, true, false, rp, rp, false, DPc.start, false, false, false⟩

/-- `markDisconnected()`: clear the port reference and write the
`<DISCONNECTED>` line (the remaining statements only toggle UI
affordances). -/
def markDisconnected (s : DState) : DState :=
  { s with picoPort := false, disconnectedLine := true }

/-- The tail of `disconnectFromPort` after the optional cancel await:
close the local port inside try/catch when one was captured, then mark
disconnected.  `port.close()` is the next await, so the segment suspends
there; without a local port it runs to the end. -/
def dProceedClose (s : DState) : DState :=
  if s.localPort then { s with closeCalled := true, dPc := DPc.closeWait }
  else { markDisconnected s with dPc := DPc.done }

inductive DEvt where
  | dStep
  | relayStep
  deriving DecidableEq, Repr

def Dstep (s : DState) (e : DEvt) : DState :=
  match e with
  | DEvt.dStep =>
    match s.dPc with
    | DPc.start =>
      let s1 := { s with localPort := s.picoPort, picoPort := false }
      if s1.picoReader then
        { s1 with relayCancelled := true, dPc := DPc.cancelWait }
      else dProceedClose s1
    | DPc.cancelWait => dProceedClose s
    | DPc.closeWait =>
      let s1 := { s with closeErrLogged := s.closeErrLogged || s.closeFails }
      { markDisconnected s1 with dPc := DPc.done }
    | DPc.done => s
  | DEvt.relayStep =>
    if s.relayReading && s.relayCancelled then
      { s with relayReading := false, picoReader := false }
    else s

def Drun (rp cf : Bool) (es : List DEvt) : DState :=
  es.foldl Dstep (DInit rp cf)

/-- All states reachable from the four initial configurations (the
fixed point of successor exploration, 20 states), checked closed and
sound by the lemmas below. -/
def Dreach : List DState :=
  [⟨false, false, false, true, false, false, false, DPc.done, true, false, true⟩,
   ⟨false, false, false, true, false, false, false, DPc.closeWait, true, false, false⟩,
   ⟨false, false, true, false, false, false, false, DPc.start, false, false, false⟩,
   ⟨false, true, false, true, false, false, false, DPc.done, true, true, true⟩,
   ⟨false, true, false, true, false, false, false, DPc.closeWait, true, false, false⟩,
   ⟨false, true, true, false, false, false, false, DPc.start, false, false, false⟩,
   ⟨true, false, false, true, false, false, true, DPc.done, true, false, true⟩,
   ⟨true, false, false, true, true, true, true, DPc.done, true, false, true⟩,
   ⟨true, false, false, true, false, false, true, DPc.closeWait, true, false, false⟩,
   ⟨true, false, false, true, true, true, true, DPc.closeWait, true, false, false⟩,
   ⟨true, false, false, true, false, false, true, DPc.cancelWait, false, false, false⟩,
   ⟨true, false, false, true, true, true, true, DPc.cancelWait, false, false, false⟩,
   ⟨true, false, true, false, true, true, false, DPc.start, false, false, false⟩,
   ⟨true, true, false, true, false, false, true, DPc.done, true, true, true⟩,
   ⟨true, true, false, true, true, true, true, DPc.done, true, true, true⟩,
   ⟨true, true, false, true, false, false, true, DPc.closeWait, true, false, false⟩,
   ⟨true, true, false, true, true, true, true, DPc.closeWait, true, false, false⟩,
   ⟨true, true, false, true, false, false, true, DPc.cancelWait, false, false, false⟩,
   ⟨true, true, false, true, true, true, true, DPc.cancelWait, false, false, false⟩,
   ⟨true, true, true, false, true, true, false, DPc.start, false, false, false⟩]

/-! ## Theorems -/

theorem C1reach_closed3 : ∀ s ∈ C1reach,
    C1step s C1Evt.relayStep ∈ C1reach ∧ C1step s C1Evt.clearStep ∈ C1reach ∧
      C1step s C1Evt.writeStep ∈ C1reach := by decide

theorem C1reach_closed (s : C1State) (hs : s ∈ C1reach) (e : C1Evt) :
    C1step s e ∈ C1reach := by
  cases e with
  | relayStep => exact (C1reach_closed3 s hs).1
  | clearStep => exact (C1reach_closed3 s hs).2.1
  | writeStep => exact (C1reach_closed3 s hs).2.2

theorem C1reach_sound :
    ∀ s ∈ C1reach, liveCount s ≤ 1 ∧ holdersCount s ≤ 1 := by decide

theorem C1foldl_mem (es : List C1Evt) :
    ∀ s ∈ C1reach, es.foldl C1step s ∈ C1reach := by
  induction es with
  | nil => intro s hs; simpa using hs
  | cons e t ih => intro s hs; exact ih _ (C1reach_closed s hs e)

theorem C1run_mem (es : List C1Evt) : C1run es ∈ C1reach :=
  C1foldl_mem es C1init (by decide)

/-- C1: every interleaving of the relay, the spawned buffer-clearing
read and the writeFile exchange keeps at most one live reader lease
(acquired and neither released nor cancelled), and indeed at most one
lock holder, at every instant. -/
theorem C1_at_most_one_live_lease (es : List C1Evt) :
    liveCount (C1run es) ≤ 1 ∧ holdersCount (C1run es) ≤ 1 :=
  C1reach_sound (C1run es) (C1run_mem es)

/-- C1 counterexample: the already-locked `getReader` exception is
reachable.  The relay acquires the reader; `writeFile` awaits
`picoReader.cancel()` — which resolves the pending read but does not
release the stream lock — and its next segment calls
`clearPicoPort(false, null)`, whose `getReader()` runs before the
cancelled relay loop's `finally` has released the lock.  At that instant
no lease is live (the relay reader is cancelled) and the stream is
still locked, so `getReader` throws: the exception is not unreachable by
construction, it is avoided only when the scheduler happens to run the
relay's cleanup first. -/
theorem C1_locked_exception_reachable :
    (C1run [C1Evt.relayStep, C1Evt.writeStep, C1Evt.writeStep]).lockedExn = true ∧
    (C1run [C1Evt.relayStep, C1Evt.writeStep]).locked = true ∧
    liveCount (C1run [C1Evt.relayStep, C1Evt.writeStep]) = 0 := by decide

theorem Dreach_closed2 : ∀ s ∈ Dreach,
    Dstep s DEvt.dStep ∈ Dreach ∧ Dstep s DEvt.relayStep ∈ Dreach := by decide

theorem Dreach_closed (s : DState) (hs : s ∈ Dreach) (e : DEvt) :
    Dstep s e ∈ Dreach := by
  cases e with
  | dStep => exact (Dreach_closed2 s hs).1
  | relayStep => exact (Dreach_closed2 s hs).2

theorem Dstep_config2 : ∀ s ∈ Dreach,
    ((Dstep s DEvt.dStep).closeFails = s.closeFails ∧
      (Dstep s DEvt.dStep).readerAtStart = s.readerAtStart) ∧
    ((Dstep s DEvt.relayStep).closeFails = s.closeFails ∧
      (Dstep s DEvt.relayStep).readerAtStart = s.readerAtStart) := by decide

theorem Dstep_config (s : DState) (hs : s ∈ Dreach) (e : DEvt) :
    (Dstep s e).closeFails = s.closeFails ∧
    (Dstep s e).readerAtStart = s.readerAtStart := by
  cases e with
  | dStep => exact (Dstep_config2 s hs).1
  | relayStep => exact (Dstep_config2 s hs).2

theorem Dreach_sound : ∀ s ∈ Dreach,
    (s.dPc = DPc.done → s.relayReading = false →
      s.picoPort = false ∧ s.picoReader = false ∧
      s.disconnectedLine = true ∧ s.closeCalled = true ∧
      s.closeErrLogged = s.closeFails ∧
      (s.readerAtStart = true → s.relayCancelled = true)) ∧
    (s.closeCalled = true → s.readerAtStart = true →
      s.relayCancelled = true) := by decide

theorem Dfoldl_mem (es : List DEvt) :
    ∀ s ∈ Dreach, es.foldl Dstep s ∈ Dreach := by
  induction es with
  | nil => intro s hs; simpa using hs
  | cons e t ih => intro s hs; exact ih _ (Dreach_closed s hs e)

theorem DInit_mem (rp cf : Bool) : DInit rp cf ∈ Dreach := by
  cases rp <;> cases cf <;> decide

theorem Drun_mem (rp cf : Bool) (es : List DEvt) : Drun rp cf es ∈ Dreach :=
  Dfoldl_mem es (DInit rp cf) (DInit_mem rp cf)

theorem Dfoldl_config (es : List DEvt) :
    ∀ s ∈ Dreach, (es.foldl Dstep s).closeFails = s.closeFails ∧
      (es.foldl Dstep s).readerAtStart = s.readerAtStart := by
  induction es with
  | nil => intro s _; exact ⟨rfl, rfl⟩
  | cons e t ih =>
    intro s hs
    have h1 := Dstep_config s hs e
    have h2 := ih (Dstep s e) (Dreach_closed s hs e)
    exact ⟨h2.1.trans h1.1, h2.2.trans h1.2⟩

theorem Drun_config (rp cf : Bool) (es : List DEvt) :
    (Drun rp cf es).closeFails = cf ∧ (Drun rp cf es).readerAtStart = rp :=
  Dfoldl_config es (DInit rp cf) (DInit_mem rp cf)

/-- C7: once `disconnectFromPort` has run to completion (its own steps
done and the woken relay loop's cleanup done), the session is
disconnected for every outcome of `port.close()`: the port reference is
cleared, no reader reference is retained, the `<DISCONNECTED>` line has
been written, the close error (when close rejects) was logged without
being propagated (the disconnect sequence still completed), and an
outstanding reader lease was cancelled — moreover at every instant of
every interleaving, `close()` is called only after the cancellation of
the outstanding reader was awaited. -/
theorem C7_disconnect_settles (rp cf : Bool) (es : List DEvt)
    (h1 : (Drun rp cf es).dPc = DPc.done)
    (h2 : (Drun rp cf es).relayReading = false) :
    (Drun rp cf es).picoPort = false ∧
    (Drun rp cf es).picoReader = false ∧
    (Drun rp cf es).disconnectedLine = true ∧
    (Drun rp cf es).closeCalled = true ∧
    (Drun rp cf es).closeErrLogged = cf ∧
    (rp = true → (Drun rp cf es).relayCancelled = true) ∧
    (∀ es2 : List DEvt, (Drun rp cf es2).closeCalled = true → rp = true →
      (Drun rp cf es2).relayCancelled = true) := by
  have hm := Dreach_sound (Drun rp cf es) (Drun_mem rp cf es)
  have hc := Drun_config rp cf es
  have hmain := hm.1 h1 h2
  refine ⟨hmain.1, hmain.2.1, hmain.2.2.1, hmain.2.2.2.1, ?_, ?_, ?_⟩
  · rw [hmain.2.2.2.2.1, hc.1]
  · intro hrp; exact hmain.2.2.2.2.2 (by rw [hc.2, hrp])
  · intro es2 hclose hrp
    have hm2 := Dreach_sound (Drun rp cf es2) (Drun_mem rp cf es2)
    have hc2 := Drun_config rp cf es2
    exact hm2.2 hclose (by rw [hc2.2, hrp])

/-- C7 witness: a complete disconnect with a live relay lease and a
failing `port.close()`. -/
theorem C7_witness :
    (Drun true true [DEvt.dStep, DEvt.dStep, DEvt.dStep, DEvt.relayStep]).picoPort
        = false ∧
    (Drun true true [DEvt.dStep, DEvt.dStep, DEvt.dStep, DEvt.relayStep]).picoReader
        = false ∧
    (Drun true true [DEvt.dStep, DEvt.dStep, DEvt.dStep, DEvt.relayStep]).disconnectedLine
        = true ∧
    (Drun true true [DEvt.dStep, DEvt.dStep, DEvt.dStep, DEvt.relayStep]).closeCalled
        = true ∧
    (Drun true true [DEvt.dStep, DEvt.dStep, DEvt.dStep, DEvt.relayStep]).closeErrLogged
        = true ∧
    (true = true →
      (Drun true true [DEvt.dStep, DEvt.dStep, DEvt.dStep, DEvt.relayStep]).relayCancelled
        = true) ∧
    (∀ es2 : List DEvt, (Drun true true es2).closeCalled = true → true = true →
      (Drun true true es2).relayCancelled = true) :=
  C7_disconnect_settles true true [DEvt.dStep, DEvt.dStep, DEvt.dStep, DEvt.relayStep]
    (by decide) (by decide)

theorem clearLoop_skip (t : Option Str) (pre : List Str) :
    ∀ (rest : List ReadEvt) (acc : Str) (cbs : List Str),
      (∀ x ∈ pre, (targetTruthy t && strIncludes x (t.getD [])) = false) →
      clearLoop t (chunkEvts pre ++ rest) acc cbs =
        clearLoop t rest (acc ++ pre.flatten) (cbs ++ pre) := by
  induction pre with
  | nil => intro rest acc cbs _; simp [chunkEvts]
  | cons x xs ih =>
    intro rest acc cbs h
    have hx := h x (by simp)
    simp only [chunkEvts, List.map_cons, List.cons_append, clearLoop, hx,
      Bool.false_eq_true, if_false, List.append_eq]
    rw [show (xs.map ReadEvt.chunk) = chunkEvts xs from rfl,
      ih rest (acc ++ x) (cbs ++ [x]) (fun y hy => h y (by simp [hy]))]
    simp [List.append_assoc]

/-- C2 (amended): for a truthy terminator, the accumulated result of
`clearPicoPort` is everything before the first chunk that contains the
terminator, plus that chunk trimmed at the terminator's first
occurrence; the containing chunk itself is still delivered once,
untrimmed, to the observing callback, and the reader lease is released.
On the spec's example — chunks `he` and `llo>OK world` with terminator
`O` — this yields `hello>`, not `hello` (the split keeps the `>`
preceding the capital `O`). -/
theorem C2_terminator_trim (t : Str) (pre : List Str) (c : Str)
    (post : List ReadEvt) (lb rb : Bool)
    (ht : t ≠ [])
    (hpre : ∀ x ∈ pre, strIncludes x t = false)
    (hc : strIncludes c t = true) :
    clearPicoPort true (some t) (chunkEvts pre ++ ReadEvt.chunk c :: post) lb rb =
      ⟨pre.flatten ++ beforeTarget c t, pre ++ [c], [], false, false⟩ := by
  have htr : targetTruthy (some t) = true := by
    cases t with
    | nil => exact absurd rfl ht
    | cons a l => rfl
  have hskip : ∀ x ∈ pre,
      (targetTruthy (some t) && strIncludes x ((some t).getD [])) = false := by
    intro x hx
    simp [hpre x hx]
  simp only [clearPicoPort, if_true]
  rw [clearLoop_skip (some t) pre (ReadEvt.chunk c :: post) [] [] hskip]
  simp [clearLoop, htr, hc]

/-- C2 witness: the amended statement at the spec's own example. -/
theorem C2_witness :
    clearPicoPort true (some (str "O"))
        (chunkEvts [str "he"] ++ ReadEvt.chunk (str "llo>OK world") :: []) false false =
      ⟨List.flatten [str "he"] ++ beforeTarget (str "llo>OK world") (str "O"),
       [str "he"] ++ [str "llo>OK world"], [], false, false⟩ :=
  C2_terminator_trim (str "O") [str "he"] (str "llo>OK world") [] false false
    (by decide) (by decide) (by decide)

/-- C2 counterexample: the claimed accumulated result `hello` is wrong.
Feeding chunks `he` and `llo>OK world` with terminator `O` accumulates
`hello>`: the second chunk is split at the first capital `O`, which
stands after the `>`, so the `>` is kept. -/
theorem C2_example_false :
    (clearPicoPort true (some (str "O"))
        (chunkEvts [str "he", str "llo>OK world"]) false false).result =
      str "hello>" ∧
    str "hello>" ≠ str "hello" := by decide

/-- C6: for every execution of `clearPicoPort` that acquires a reader,
the reader lock is released and the stored reader reference is cleared
before the call returns — on the error path and on the early-terminator
path alike; and when a stream read rejects with an `Error` after some
clean chunks, the error is surfaced as a single bracketed
`<ERROR: message>` terminal line and the call resolves with the text
accumulated before the failure instead of rejecting. -/
theorem C6_cleanup_and_error_surfacing :
    (∀ (t : Option Str) (evts : List ReadEvt) (lb rb : Bool),
        (clearPicoPort true t evts lb rb).lockedAfter = false ∧
        (clearPicoPort true t evts lb rb).readerAfter = false) ∧
    (∀ (t : Option Str) (pre : List Str) (m : Str) (rest : List ReadEvt)
        (lb rb : Bool),
        (∀ x ∈ pre, (targetTruthy t && strIncludes x (t.getD [])) = false) →
        clearPicoPort true t (chunkEvts pre ++ ReadEvt.errE m :: rest) lb rb =
          ⟨pre.flatten, pre, [errLine m], false, false⟩) := by
  constructor
  · intro t evts lb rb
    simp [clearPicoPort]
  · intro t pre m rest lb rb h
    simp only [clearPicoPort, if_true]
    rw [clearLoop_skip t pre (ReadEvt.errE m :: rest) [] [] h]
    simp [clearLoop]

/-- C6 witness: a read that rejects after one clean chunk. -/
theorem C6_witness :
    clearPicoPort true none
        (chunkEvts [str "ab"] ++ ReadEvt.errE (str "boom") :: []) false false =
      ⟨List.flatten [str "ab"], [str "ab"], [errLine (str "boom")], false, false⟩ :=
  C6_cleanup_and_error_surfacing.2 none [str "ab"] (str "boom") [] false false
    (by decide)

theorem waitForOKFrom_timeout (poll : Nat → Str)
    (H : ∀ (j : Nat) (r : Str), strIncludes r (str ">OK") = false →
        strIncludes (r ++ poll j) (str ">OK") = false) :
    ∀ (n k : Nat) (r : Str), 31 - k ≤ n → k ≤ 31 →
      strIncludes r (str ">OK") = false →
      waitForOKFrom poll k r =
        (Except.error (str "Timeout waiting for \">OK\""), 31) := by
  intro n
  induction n with
  | zero =>
    intro k r hn hk hr
    have hk31 : k = 31 := by omega
    subst hk31
    rw [waitForOKFrom]
    simp [H 31 r hr]
  | succ n ih =>
    intro k r hn hk hr
    by_cases hk31 : k = 31
    · subst hk31
      rw [waitForOKFrom]
      simp [H 31 r hr]
    · rw [waitForOKFrom]
      simp only [H k r hr, Bool.false_eq_true, if_false]
      rw [if_neg (by omega)]
      exact ih (k + 1) (r ++ poll k) (by omega) (by omega) (H k r hr)

/-- C3 (amended): the `waitForOK` step of the earlier engine variant
does terminate by a distinct timeout failure when the receive stream
never produces the `>OK` marker: it polls 31 times at 100 ms intervals
and throws its timeout error at the first check past the 3000 ms bound,
i.e. within 3000 + 100 ms of invocation, and does not retry.  (The later
read-file exchange `loadTempPy` has no such bound — see the
counterexample.) -/
theorem C3_waitForOK_timeout (poll : Nat → Str)
    (H : ∀ (j : Nat) (r : Str), strIncludes r (str ">OK") = false →
        strIncludes (r ++ poll j) (str ">OK") = false) :
    waitForOK false poll =
      (Except.error (str "Timeout waiting for \">OK\""), 31) ∧
    100 * 31 ≤ 3000 + 100 := by
  constructor
  · rw [waitForOK]
    simp only [Bool.false_eq_true, if_false]
    exact waitForOKFrom_timeout poll H 31 0 [] (by omega) (by omega) (by decide)
  · omega

/-- C3 witness: a transport that delivers nothing at all. -/
theorem C3_witness :
    waitForOK false (fun _ => []) =
      (Except.error (str "Timeout waiting for \">OK\""), 31) ∧
    100 * 31 ≤ 3000 + 100 :=
  C3_waitForOK_timeout (fun _ => []) (by intro j r h; simpa using h)

/-- C3 counterexample: the read-file exchange of `loadTempPy`
(src/index.ts:768-796) waits for the OK marker with
`clearPicoPort('OK', null)`, which contains no timeout at all.  On a
transport that never delivers `OK` and then closes after the chunk
`abc`, the wait step resolves normally with `abc` — no timeout failure
is raised (and on a stream that never ends it would never return). -/
theorem C3_loadTempPy_wait_no_timeout :
    clearPicoPort true (some (str "OK")) (chunkEvts [str "abc"]) false false =
      ⟨str "abc", [str "abc"], [], false, false⟩ := by decide

/-- C4: `binaryStringToUint8Array` strips the two-character prefix and
the trailing quote, pads an odd hex remainder with a trailing `0`
nibble, decodes pairs, and drops a final zero byte: the hex dump of
`hello` with a trailing zero byte decodes to the five bytes of `hello`,
the same dump without the zero byte decodes to the same five bytes
unchanged, and the odd-length body `abc` is padded to `abc0` before
pairing. -/
theorem C4_decode_examples :
    binaryStringToUint8Array "b'68656c6c6f00'" = [0x68, 0x65, 0x6c, 0x6c, 0x6f] ∧
    binaryStringToUint8Array "b'68656c6c6f'" = [0x68, 0x65, 0x6c, 0x6c, 0x6f] ∧
    hexBody "b'abc'" = str "abc0" := by decide

/-- C5: for every filename and content byte array, `writeFile` drives
the writable endpoint with exactly: acquire, the raw-mode-enter byte
0x01, the open-for-binary-write line ended by carriage return, the
`f.write(bytes([...]))` line carrying the bracketed decimal array
literal of the content ended by carriage return, the end-of-data byte
0x04, release of the writer lease, and then — as a separate ordinary
command with its own acquire and release — the exit-to-interactive byte
0x02.  The event list contains no read of a device response.  The second
conjunct shows the decimal array literal on concrete bytes. -/
theorem C5_writeFile_wire (filename : String) (content : List Nat) :
    writeFileEvts true filename content =
      [WriterEvt.acquire,
       WriterEvt.wr (str "\x01"),
       WriterEvt.wr (str "with open(\"" ++ str filename ++ str "\", \"wb\") as f:\r"),
       WriterEvt.wr (str "  f.write(bytes(" ++ jsonNumArray content ++ str "))\r"),
       WriterEvt.wr (str "\x04"),
       WriterEvt.release,
       WriterEvt.acquire, WriterEvt.wr (str "\x02"), WriterEvt.release] ∧
    jsonNumArray [104, 101, 108] = str "[104,101,108]" :=
  ⟨by simp [writeFileEvts, sendCommandEvts], by decide⟩

/-- C8 (amended): every write/exchange entry point is a silent no-op
toward the transport when there is no active port with a writable
stream — it writes nothing and does not throw — but it does not leave
all session state unchanged: the shared `getWritablePort` guard stores
`null` into the cached `picoWriter` field, and that is the sole
mutation.  `sendCommand` and the run-code handler built on it are
covered for every state without a writable port; the exchange entry
points `writeFile` and `loadTempPy` for every state with no transport
handle at all (the spec's guard state — their relay-suspend/resume
reads are guarded by the port as well), for every filename, content and
read-event lists. -/
theorem C8_entry_points_silent_guard :
    (∀ (command : Str) (s : PicoState),
        (s.portPresent && s.portWritable) = false →
        sendCommandM command s = { s with picoWriter := false }) ∧
    (∀ (text : Str) (s : PicoState),
        (s.portPresent && s.portWritable) = false →
        runCodeM text s = { s with picoWriter := false }) ∧
    (∀ (filename : String) (content : List Nat)
        (clearEvts resumeEvts : List ReadEvt) (s : PicoState),
        s.portPresent = false →
        writeFileM filename content clearEvts resumeEvts s =
          { s with picoWriter := false }) ∧
    (∀ (okEvts dataEvts resumeEvts : List ReadEvt) (s : PicoState),
        s.portPresent = false →
        loadTempPyM okEvts dataEvts resumeEvts s =
          { s with picoWriter := false }) := by
  refine ⟨?_, ?_, ?_, ?_⟩
  · intro command s h
    simp [sendCommandM, getWritablePortM, h]
  · intro text s h
    simp [runCodeM, sendCommandM, getWritablePortM, h]
  · intro filename content clearEvts resumeEvts s h
    simp [writeFileM, clearPicoPortM, clearPicoPort, getWritablePortM, h]
  · intro okEvts dataEvts resumeEvts s h
    simp [loadTempPyM, clearPicoPortM, clearPicoPort, getWritablePortM, h]

/-- C8 witness: `writeFile` in the disconnected state, with a stale
cached writer reference and pending read events that its guarded calls
never consume. -/
theorem C8_witness :
    writeFileM "temp.py" [104] [ReadEvt.chunk (str "x")] []
        ⟨false, false, true, false, false, true, []⟩ =
      { (⟨false, false, true, false, false, true, []⟩ : PicoState) with
          picoWriter := false } :=
  C8_entry_points_silent_guard.2.2.1 "temp.py" [104]
    [ReadEvt.chunk (str "x")] [] ⟨false, false, true, false, false, true, []⟩
    (by decide)

/-- C8 counterexample: the claim that the request leaves all session
state unchanged is wrong.  At a state with no port but a stale cached
writer reference, `sendCommand` mutates the state: the `picoWriter`
field is overwritten with `null`. -/
theorem C8_state_changed :
    sendCommandM (str "\x03") ⟨false, false, false, false, false, true, []⟩ ≠
      ⟨false, false, false, false, false, true, []⟩ ∧
    sendCommandM (str "\x03") ⟨false, false, false, false, false, true, []⟩ =
      ⟨false, false, false, false, false, false, []⟩ := by decide

theorem findPortOption_append_none (l1 l2 : List PortOption) (p : Nat)
    (h : findPortOption l1 p = none) :
    findPortOption (l1 ++ l2) p = findPortOption l2 p := by
  induction l1 with
  | nil => simp
  | cons o t ih =>
    by_cases hv : o.value = str "prompt"
    · simp only [findPortOption, hv, if_true, List.cons_append] at h ⊢
      exact ih h
    · by_cases hp : o.port = some p
      · simp [findPortOption, hv, hp] at h
      · simp only [findPortOption, hv, hp, if_false, List.cons_append,
          if_neg hv, if_neg hp] at h ⊢
        exact ih h

theorem portLabel_ne_prompt (n : Nat) :
    (str "Port " ++ str (toString n)) ≠ str "prompt" := by
  intro h
  have h1 : (str "Port " ++ str (toString n)).head? = some 'P' := rfl
  rw [h] at h1
  exact absurd h1 (by decide)

/-- C9: port registry lookups go by the port object, never by the
label, and `maybeAddNewPort` is idempotent on port identity: when the
port is already present the existing option is returned and the
registry is unchanged; when it is absent exactly one option carrying
that port is appended; a second call with the same port then returns
that entry and changes nothing; and `findPortOption` commutes with any
relabelling of the dropdown. -/
theorem C9_registry_identity :
    (∀ (r : Registry) (p : Nat) (o : PortOption),
        findPortOption r.options p = some o → maybeAddNewPort r p = (o, r)) ∧
    (∀ (r : Registry) (p : Nat),
        findPortOption r.options p = none →
        (maybeAddNewPort r p).2.options =
          r.options ++ [(maybeAddNewPort r p).1] ∧
        (maybeAddNewPort r p).1.port = some p) ∧
    (∀ (r : Registry) (p : Nat),
        maybeAddNewPort (maybeAddNewPort r p).2 p =
          ((maybeAddNewPort r p).1, (maybeAddNewPort r p).2)) ∧
    (∀ (f : Str → Str) (opts : List PortOption) (p : Nat),
        findPortOption (opts.map (relabelOption f)) p =
          (findPortOption opts p).map (relabelOption f)) := by
  have hrelabel : ∀ (f : Str → Str) (opts : List PortOption) (p : Nat),
      findPortOption (opts.map (relabelOption f)) p =
        (findPortOption opts p).map (relabelOption f) := by
    intro f opts p
    induction opts with
    | nil => simp [findPortOption]
    | cons o t ih =>
      by_cases hv : o.value = str "prompt"
      · simp [findPortOption, relabelOption, hv, ih]
      · by_cases hp : o.port = some p
        · simp [findPortOption, relabelOption, hv, hp]
        · simp [findPortOption, relabelOption, hv, hp, ih]
  refine ⟨?_, ?_, ?_, hrelabel⟩
  · intro r p o h
    simp [maybeAddNewPort, h]
  · intro r p h
    simp [maybeAddNewPort, h, addNewPort]
  · intro r p
    rcases h : findPortOption r.options p with _ | o
    · have hadd : maybeAddNewPort r p = addNewPort r p := by
        simp [maybeAddNewPort, h]
      rw [hadd]
      have hfind : findPortOption (addNewPort r p).2.options p =
          some (addNewPort r p).1 := by
        simp only [addNewPort]
        rw [findPortOption_append_none _ _ _ h]
        simp [findPortOption, portLabel_ne_prompt r.portCounter]
      simp [maybeAddNewPort, hfind]
    · have hm : maybeAddNewPort r p = (o, r) := by simp [maybeAddNewPort, h]
      rw [hm]
      simp [maybeAddNewPort, h]

/-- C9 witness: a registry already holding the port. -/
theorem C9_witness :
    maybeAddNewPort ⟨[⟨str "x", str "x", some 5⟩], 1⟩ 5 =
      (⟨str "x", str "x", some 5⟩, ⟨[⟨str "x", str "x", some 5⟩], 1⟩) :=
  C9_registry_identity.1 ⟨[⟨str "x", str "x", some 5⟩], 1⟩ 5
    ⟨str "x", str "x", some 5⟩ (by decide)

/-- C10: `binaryStringToUint8Array` is total and never validates its
framing: the first two characters and the last one are removed whatever
they are (two inputs with the same middle decode alike), every input of
length at most three — the empty dump `b` quote quote included — yields
the empty byte array, and the drop-final-zero rule fires exactly when
the decoded array is non-empty with last byte zero. -/
theorem C10_total_no_validation :
    (∀ s : String, s.length ≤ 3 → binaryStringToUint8Array s = []) ∧
    binaryStringToUint8Array "@@6865!" = [0x68, 0x65] ∧
    (∀ s1 s2 : String, stripFraming (str s1) = stripFraming (str s2) →
        binaryStringToUint8Array s1 = binaryStringToUint8Array s2) ∧
    (∀ s : String, (decodedBytes s).getLast? = some 0 →
        binaryStringToUint8Array s = (decodedBytes s).dropLast) ∧
    (∀ s : String, (decodedBytes s).getLast? ≠ some 0 →
        binaryStringToUint8Array s = decodedBytes s) := by
  refine ⟨?_, by decide, ?_, ?_, ?_⟩
  · intro s h
    have hlen : s.data.length ≤ 3 := h
    have hd : ((s.data.drop 2).dropLast).length = 0 := by
      simp only [List.length_dropLast, List.length_drop]
      omega
    have hnil : stripFraming (str s) = [] := by
      simpa [stripFraming, str] using List.length_eq_zero.mp hd
    simp [binaryStringToUint8Array, decodedBytes, hexBody, hnil, padHex, toPairs]
  · intro s1 s2 h
    simp [binaryStringToUint8Array, decodedBytes, hexBody, h]
  · intro s h
    simp [binaryStringToUint8Array, h]
  · intro s h
    simp [binaryStringToUint8Array, beq_iff_eq, h]

/-- C10 witness: the empty dump. -/
theorem C10_witness :
    ("b''".length ≤ 3) ∧ binaryStringToUint8Array "b''" = [] :=
  ⟨by decide, C10_total_no_validation.1 "b''" (by decide)⟩

end PicoEditor
